import Mathlib

/-!
Shallow embedding of the @rizzle/fetch package (packages/fetch/src/utils.ts,
the Fetcher core, the polyfill module and the types module) and proofs of the
specification claims about it.

Modelling conventions:
* TypeScript `undefined` / absent optional fields are `Option.none`.
* JavaScript numbers that the claims exercise are modelled as `Nat` / `Int`
  (millisecond delays, status codes, retry counts).
* The network is abstracted by an attempt oracle `Nat → Except Thrown ρ`
  giving the outcome of each single attempt of `performRequest`; the retry
  loop (`executeRequest`), the public `request` and the wrappers are
  translated faithfully on top of it.
-/

namespace RizzleFetch

/-! ### JavaScript values and JSON.stringify -/

/-- A JavaScript value as far as JSON serialization is concerned. -/
inductive JsVal where
  | str (s : String)
  | num (n : Int)
  | bool (b : Bool)
  | null
  | obj (fields : List (String × JsVal))
  | arr (items : List JsVal)
deriving Repr

/-- Lower-case hexadecimal digit, as used by JSON.stringify escapes. -/
def hexDigitLower (n : Nat) : Char :=
  if n < 10 then Char.ofNat (48 + n) else Char.ofNat (97 + (n - 10))

/-- Upper-case hexadecimal digit, as used by percent-encoding. -/
def hexDigitUpper (n : Nat) : Char :=
  if n < 10 then Char.ofNat (48 + n) else Char.ofNat (65 + (n - 10))

/-- Escaping of one character inside a JSON string literal (JSON.stringify). -/
def jsonEscapeChar (c : Char) : String :=
  if c = '"' then "\\\""
  else if c = '\\' then "\\\\"
  else if c = '\x08' then "\\b"
  else if c = '\x0c' then "\\f"
  else if c = '\n' then "\\n"
  else if c = '\r' then "\\r"
  else if c = '\t' then "\\t"
  else if c.toNat < 32 then
    "\\u00" ++ String.singleton (hexDigitLower (c.toNat / 16))
      ++ String.singleton (hexDigitLower (c.toNat % 16))
  else String.singleton c

/-- Escaping of a whole JSON string body. -/
def jsonEscape (s : String) : String :=
  String.join (s.toList.map jsonEscapeChar)

mutual

/-- Models JSON.stringify on a JavaScript value (insertion key order). -/
def JsVal.stringify : JsVal → String
  | .str s => "\"" ++ jsonEscape s ++ "\""
  | .num n => toString n
  | .bool b => if b then "true" else "false"
  | .null => "null"
  | .obj fields => "\x7b" ++ stringifyMembers fields ++ "\x7d"
  | .arr items => "[" ++ stringifyElements items ++ "]"

/-- Comma-separated serialization of the members of a JSON object. -/
def stringifyMembers : List (String × JsVal) → String
  | [] => ""
  | [(k, v)] => "\"" ++ jsonEscape k ++ "\":" ++ JsVal.stringify v
  | (k, v) :: rest =>
      "\"" ++ jsonEscape k ++ "\":" ++ JsVal.stringify v ++ "," ++ stringifyMembers rest

/-- Comma-separated serialization of the elements of a JSON array. -/
def stringifyElements : List JsVal → String
  | [] => ""
  | [v] => JsVal.stringify v
  | v :: rest => JsVal.stringify v ++ "," ++ stringifyElements rest

end

/-! ### Request bodies: serializeBody and getContentType (utils.ts) -/

/-- The universe of values a request body can be, discriminated the way the
    source discriminates them (string, Blob with its declared type,
    ArrayBuffer, FormData, URLSearchParams, ReadableStream, plain object,
    array, and primitive fallbacks; null is a distinct JS value). -/
inductive Body where
  | str (s : String)
  | blob (blobType : String)
  | arrayBuffer
  | formData
  | urlSearchParams
  | readableStream
  | obj (fields : List (String × JsVal))
  | arr (items : List JsVal)
  | num (n : Int)
  | bool (b : Bool)
  | null
deriving Repr

/-- Models utils.ts isPlainObject: typeof value is object, value is not null
    and not an array.  Note every non-array object (Blob, FormData, streams)
    satisfies it; the callers test the specific classes first. -/
def isPlainObject : Body → Bool
  | .obj _ => true
  | .blob _ => true
  | .arrayBuffer => true
  | .formData => true
  | .urlSearchParams => true
  | .readableStream => true
  | .str _ => false
  | .num _ => false
  | .bool _ => false
  | .null => false
  | .arr _ => false

/-- Models utils.ts serializeBody.  Input none is an undefined body.
    The match arms follow the if-chain of the source: undefined/null give no
    body; BodyInit-shaped values pass through; plain objects and arrays are
    JSON-stringified; anything else is coerced with String(body). -/
def serializeBody : Option Body → Option Body
  | none => none
  | some .null => none
  | some (.str s) => some (.str s)
  | some (.blob t) => some (.blob t)
  | some .arrayBuffer => some .arrayBuffer
  | some .formData => some .formData
  | some .urlSearchParams => some .urlSearchParams
  | some .readableStream => some .readableStream
  | some (.obj fields) => some (.str (JsVal.stringify (.obj fields)))
  | some (.arr items) => some (.str (JsVal.stringify (.arr items)))
  | some (.num n) => some (.str (toString n))
  | some (.bool b) => some (.str (if b then "true" else "false"))

/-- Models utils.ts getContentType, arm for arm.  A ReadableStream body falls
    through every instanceof test down to the isPlainObject test, which it
    passes (typeof object, not null, not an array), so it derives
    application/json; the Blob arm uses the declared type unless it is the
    empty string, which is falsy in JS. -/
def getContentType : Option Body → Option String
  | none => none
  | some .null => none
  | some (.str _) => some "text/plain"
  | some .formData => none
  | some .urlSearchParams => some "application/x-www-form-urlencoded"
  | some (.blob t) => some (if t = "" then "application/octet-stream" else t)
  | some .arrayBuffer => some "application/octet-stream"
  | some (.obj _) => some "application/json"
  | some (.arr _) => some "application/json"
  | some .readableStream => some "application/json"
  | some (.num _) => none
  | some (.bool _) => none

/-! ### Query parameters and buildURL (utils.ts) -/

/-- A scalar query-parameter value: string, number or boolean. -/
inductive Prim where
  | str (s : String)
  | num (n : Int)
  | bool (b : Bool)
deriving Repr, DecidableEq

/-- Models the JS String(value) coercion on a scalar parameter value. -/
def primToString : Prim → String
  | .str s => s
  | .num n => toString n
  | .bool b => if b then "true" else "false"

/-- A params record: keys mapped to scalar values, where a none value is a
    present key holding null or undefined. -/
abbrev ParamMap := List (String × Option Prim)

/-- UTF-8 bytes of a character, for percent-encoding. -/
def utf8Bytes (c : Char) : List Nat :=
  let n := c.toNat
  if n < 128 then [n]
  else if n < 2048 then [192 + n / 64, 128 + n % 64]
  else if n < 65536 then [224 + n / 4096, 128 + (n / 64) % 64, 128 + n % 64]
  else [240 + n / 262144, 128 + (n / 4096) % 64, 128 + (n / 64) % 64, 128 + n % 64]

/-- One byte as a percent-escape. -/
def percentByte (b : Nat) : String :=
  "%" ++ String.singleton (hexDigitUpper (b / 16)) ++ String.singleton (hexDigitUpper (b % 16))

/-- Models the application/x-www-form-urlencoded serialization of one
    character, as URLSearchParams.toString performs it: ASCII alphanumerics
    and * - . _ kept, space becomes +, all else percent-encoded per UTF-8
    byte. -/
def formUrlEncodeChar (c : Char) : String :=
  if c.isAlphanum ∧ c.toNat < 128 then String.singleton c
  else if c = '*' ∨ c = '-' ∨ c = '.' ∨ c = '_' then String.singleton c
  else if c = ' ' then "+"
  else String.join ((utf8Bytes c).map percentByte)

/-- Form-url-encoding of a whole key or value. -/
def formUrlEncode (s : String) : String :=
  String.join (s.toList.map formUrlEncodeChar)

/-- The non-null entries of a params record, coerced to strings, in order:
    the contents of the URLSearchParams that buildURL accumulates. -/
def paramPairs (ps : ParamMap) : List (String × String) :=
  ps.filterMap (fun p => p.2.map (fun v => (p.1, primToString v)))

/-- Models URLSearchParams.toString over the accumulated pairs. -/
def searchParamsToString (pairs : List (String × String)) : String :=
  String.intercalate "&" (pairs.map (fun p => formUrlEncode p.1 ++ "=" ++ formUrlEncode p.2))

/-- Models url.includes with a question mark: some character of the URL is
    a question mark. -/
def hasQuestionMark (url : String) : Bool :=
  url.toList.contains '?'

/-- Models utils.ts buildURL: skip null/undefined values, append the encoded
    query with the separator chosen by whether the URL already has a question
    mark, and leave the URL alone when there is no query. -/
def buildURL (url : String) (params : Option ParamMap) : String :=
  match params with
  | none => url
  | some ps =>
    let queryString := searchParamsToString (paramPairs ps)
    if queryString = "" then url
    else url ++ (if hasQuestionMark url then "&" else "?") ++ queryString

/-! ### Headers and mergeHeaders (utils.ts) -/

/-- A HeadersInit: an ordered list of name/value entries (a record or entry
    array; a Headers object is observationally the same list). -/
abbrev HeaderList := List (String × String)

/-- ASCII lower-casing of a header name, for the case-insensitive name
    normalization the platform Headers class performs. -/
def lowerString (s : String) : String :=
  String.mk (s.toList.map Char.toLower)

/-- Models the set method of the platform Headers class: the name is
    normalized case-insensitively (stored lower-cased) and the new value
    replaces any existing one.  Observational model: existing entries for the
    name are dropped and the binding is appended. -/
def headersSet (hs : HeaderList) (k v : String) : HeaderList :=
  (hs.filter (fun p => p.1 ≠ lowerString k)) ++ [(lowerString k, v)]

/-- Folds one HeadersInit into an accumulating Headers object via set, entry
    by entry, as each branch of the mergeHeaders forEach does. -/
def setAll (acc : HeaderList) (init : HeaderList) : HeaderList :=
  init.foldl (fun a p => headersSet a p.1 p.2) acc

/-- Models utils.ts mergeHeaders: start from an empty Headers and set every
    entry of every given (possibly undefined) HeadersInit in order. -/
def mergeHeaders (ls : List (Option HeaderList)) : HeaderList :=
  ls.foldl (fun acc o => match o with | none => acc | some hs => setAll acc hs) []

/-- Models Headers.get: case-insensitive lookup in the stored entries
    (first match; a set-built Headers never holds duplicates). -/
def headerGet : HeaderList → String → Option String
  | [], _ => none
  | p :: rest, k => if p.1 = lowerString k then some p.2 else headerGet rest k

/-- The value the last entry of a raw HeadersInit gives a name,
    case-insensitively (the value that survives last-writer-wins). -/
def lastGet : HeaderList → String → Option String
  | [], _ => none
  | p :: rest, k =>
      (lastGet rest k).or (if lowerString p.1 = lowerString k then some p.2 else none)

/-! ### Retry policy and shouldRetry (utils.ts) -/

/-- The retry field of a config; every sub-field optional as in the source.
    The count is an integer because the source never excludes negatives. -/
structure RetryPolicy where
  count : Option Int := none
  delay : Option Nat := none
  backoff : Option Nat := none
  retryOn : Option (List Nat) := none
deriving Repr, DecidableEq

/-- Models utils.ts shouldRetry: the status is retryable when it is in the
    caller-given list, defaulting to [408, 429, 500, 502, 503, 504]. -/
def shouldRetry (status : Nat) (retryOn : Option (List Nat)) : Bool :=
  let defaultRetryOn : List Nat := [408, 429, 500, 502, 503, 504]
  let codes := retryOn.getD defaultRetryOn
  codes.contains status

/-! ### Errors (types.ts) -/

/-- Models the FetchError class (and its TimeoutError subclass, distinguished
    by the name field and the extra timeoutMs field).  The raw Response
    reference carried by the class is not modelled. -/
structure FetchError where
  name : String
  message : String
  status : Option Nat
  statusText : Option String
  errorData : Option String
  timeoutMs : Option Nat
deriving Repr, DecidableEq

/-- A TimeoutError as its constructor builds it: super(message) sets no
    status, and the name is overwritten. -/
def FetchError.timeout (message : String) (ms : Nat) : FetchError :=
  ⟨"TimeoutError", message, none, none, none, some ms⟩

/-- A value thrown inside the executor: a FetchError instance (TimeoutError
    included), some other JS Error, or the value undefined (thrown by the
    exhausted loop of executeRequest when it never ran). -/
inductive Thrown where
  | fetchError (e : FetchError)
  | jsError (message : String)
  | undef
deriving Repr, DecidableEq

/-- Models Fetcher.createError: FetchError instances pass through, other
    Errors keep their message, any other value is String-coerced
    (String(undefined) is the string undefined). -/
def createError : Thrown → FetchError
  | .fetchError e => e
  | .jsError msg => ⟨"FetchError", msg, none, none, none, none⟩
  | .undef => ⟨"FetchError", "undefined", none, none, none, none⟩

/-! ### Configuration and mergeConfig (types.ts, utils.ts) -/

/-- The validateStatus option: a predicate on the status, or a boolean. -/
inductive ValidateStatus where
  | pred (f : Nat → Bool)
  | bool (b : Bool)

/-- The response parsing mode. -/
inductive ResponseType where
  | json | text | blob | arrayBuffer | formData
deriving Repr, DecidableEq

/-- A request/instance configuration (FetchBaseConfig and the instance-level
    FetchConfig flattened, as mergeConfig treats them).  Absent optional
    fields are none.  The onRequest/onResponse interceptors and the transform
    hooks act inside performRequest, which the attempt oracle abstracts, so
    only their presence is modelled; onError acts inside request and is
    modelled as a function that may itself throw. -/
structure FetchConfig where
  method : Option String := none
  body : Option Body := none
  params : Option ParamMap := none
  timeout : Option Nat := none
  baseURL : Option String := none
  headers : Option HeaderList := none
  responseType : Option ResponseType := none
  parseJson : Option Bool := none
  validateStatus : Option ValidateStatus := none
  retry : Option RetryPolicy := none
  onRequest : Option Unit := none
  onResponse : Option Unit := none
  transformRequest : Option Unit := none
  transformResponse : Option Unit := none
  onError : Option (FetchError → Except Thrown Unit) := none

/-- Field-wise merge of the optional retry objects, as the spread
    expression over base.retry and override.retry computes it. -/
def spreadRetry (a b : Option RetryPolicy) : RetryPolicy :=
  let x := a.getD {}
  let y := b.getD {}
  ⟨y.count.or x.count, y.delay.or x.delay, y.backoff.or x.backoff, y.retryOn.or x.retryOn⟩

/-- Key-wise spread of two records: override entries win per key, base
    entries without an override key survive. -/
def spreadObj {α : Type} (a b : List (String × α)) : List (String × α) :=
  (a.filter (fun p => (b.lookup p.1).isNone)) ++ b

/-- Models utils.ts mergeConfig: undefined operands pass the other side
    through untouched; otherwise base is spread, override is spread over it,
    and headers, params and retry are rebuilt by their dedicated merges. -/
def mergeConfig (base override : Option FetchConfig) : FetchConfig :=
  match base, override with
  | none, o => o.getD {}
  | some b, none => b
  | some b, some o =>
      { method := o.method.or b.method
        body := o.body.or b.body
        params := some (spreadObj (b.params.getD []) (o.params.getD []))
        timeout := o.timeout.or b.timeout
        baseURL := o.baseURL.or b.baseURL
        headers := some (mergeHeaders [b.headers, o.headers])
        responseType := o.responseType.or b.responseType
        parseJson := o.parseJson.or b.parseJson
        validateStatus := o.validateStatus.or b.validateStatus
        retry := some (spreadRetry b.retry o.retry)
        onRequest := o.onRequest.or b.onRequest
        onResponse := o.onResponse.or b.onResponse
        transformRequest := o.transformRequest.or b.transformRequest
        transformResponse := o.transformResponse.or b.transformResponse
        onError := o.onError.or b.onError }

/-! ### Status validation (core performRequest, lines 201-208) -/

/-- Models the isValid computation of performRequest: the configured
    validateStatus defaults to true; a function is applied to the numeric
    status; otherwise the boolean selects between the transport ok flag
    (when true) and unconditional validity (when false). -/
def isValid (vs : Option ValidateStatus) (status : Nat) (ok : Bool) : Bool :=
  match vs.getD (.bool true) with
  | .pred f => f status
  | .bool b => if b then ok else true

/-- What the specification sentence for status validity literally says: a
    predicate is applied, a boolean IS the validity verdict, and unset
    defaults to the transport ok flag.  Stated only to be compared with the
    isValid computation translated from the source. -/
def isValidSpecClaim (vs : Option ValidateStatus) (status : Nat) (ok : Bool) : Bool :=
  match vs with
  | some (.pred f) => f status
  | some (.bool b) => b
  | none => ok

/-! ### The retry loop: executeRequest (core, lines 108-144) -/

/-- Everything observable about one run of executeRequest: how many attempts
    were performed, which delays were waited between them (in order), and the
    returned value or thrown error. -/
structure ExecOut (ρ : Type) where
  attempts : Nat
  delays : List Nat
  result : Except Thrown ρ
deriving Repr

/-- The fail-fast test of the loop body: the caught error is a FetchError
    whose status field is truthy (present and nonzero) and the status is not
    retryable. -/
def failsFast (e : Thrown) (retryOn : Option (List Nat)) : Bool :=
  match e with
  | .fetchError fe =>
      match fe.status with
      | some s => decide (s ≠ 0) && ! shouldRetry s retryOn
      | none => false
  | _ => false

/-- The attempt loop of executeRequest, with togo remaining iterations after
    the current attempt (so the last attempt runs with togo = 0 and
    rethrows).  Each failed non-final, non-fail-fast attempt waits
    baseDelay * backoff ^ attempt and recurses. -/
def execLoop {ρ : Type} (oracle : Nat → Except Thrown ρ) (baseDelay backoff : Nat)
    (retryOn : Option (List Nat)) : Nat → Nat → ExecOut ρ
  | attempt, togo =>
    match oracle attempt with
    | .ok r => ⟨1, [], .ok r⟩
    | .error e =>
      match togo with
      | 0 => ⟨1, [], .error e⟩
      | togo' + 1 =>
        if failsFast e retryOn then ⟨1, [], .error e⟩
        else
          let rest := execLoop oracle baseDelay backoff retryOn (attempt + 1) togo'
          ⟨rest.attempts + 1, baseDelay * backoff ^ attempt :: rest.delays, rest.result⟩

/-- Models Fetcher.executeRequest: merge the instance config with the call
    config, read the retry knobs with their defaults, and run the loop for
    attempts 0..retryCount.  When retryCount is negative the for-loop guard
    fails at once and the undefined lastError accumulator is thrown. -/
def executeRequest {ρ : Type} (oracle : Nat → Except Thrown ρ)
    (fcfg : FetchConfig) (cfg : Option FetchConfig) : ExecOut ρ :=
  let merged := mergeConfig (some fcfg) cfg
  let retryCount : Int := (merged.retry.bind (fun rp => rp.count)).getD 0
  let baseDelay : Nat := (merged.retry.bind (fun rp => rp.delay)).getD 1000
  let backoff : Nat := (merged.retry.bind (fun rp => rp.backoff)).getD 1
  let retryOn : Option (List Nat) := merged.retry.bind (fun rp => rp.retryOn)
  if retryCount < 0 then ⟨0, [], .error .undef⟩
  else execLoop oracle baseDelay backoff retryOn 0 retryCount.toNat

/-! ### The public request operation and its wrappers (core, lines 33-103) -/

/-- The Result tagged union of types.ts, modelled as a record so that the
    exactly-one-of-data-and-error invariant is a statement, not a typing
    artifact. -/
structure Result (T E : Type) where
  success : Bool
  data : Option T
  error : Option E
deriving Repr

/-- The conversion the catch block of request performs on the caught value:
    a FetchError instance passes through, anything else goes through
    createError. -/
def toFetchError : Thrown → FetchError
  | .fetchError e => e
  | other => createError other

/-- Models Fetcher.request: run executeRequest, wrap a normal return in a
    success Result; wrap a thrown value into a FetchError (instances pass
    through, others go through createError), hand it to the error
    interceptor when one is configured (whose own throw propagates), and
    produce the failure Result. -/
def request {ρ : Type} (oracle : Nat → Except Thrown ρ)
    (fcfg : FetchConfig) (cfg : Option FetchConfig) :
    Except Thrown (Result ρ FetchError) :=
  match (executeRequest oracle fcfg cfg).result with
  | .ok resp => .ok ⟨true, some resp, none⟩
  | .error t =>
    let fetchErr := toFetchError t
    match fcfg.onError with
    | none => .ok ⟨false, none, some fetchErr⟩
    | some handler =>
      match handler fetchErr with
      | .ok _ => .ok ⟨false, none, some fetchErr⟩
      | .error t2 => .error t2

/-- Models Fetcher.get: spread the call config, fix the method, forward. -/
def get {ρ : Type} (oracle : Nat → Except Thrown ρ)
    (fcfg : FetchConfig) (cfg : Option FetchConfig) :
    Except Thrown (Result ρ FetchError) :=
  request oracle fcfg (some { cfg.getD {} with method := some "GET" })

/-- Models Fetcher.post: spread the call config, fix method and body. -/
def post {ρ : Type} (oracle : Nat → Except Thrown ρ)
    (fcfg : FetchConfig) (body : Option Body) (cfg : Option FetchConfig) :
    Except Thrown (Result ρ FetchError) :=
  request oracle fcfg (some { cfg.getD {} with method := some "POST", body := body })

/-- Models Fetcher.put. -/
def put {ρ : Type} (oracle : Nat → Except Thrown ρ)
    (fcfg : FetchConfig) (body : Option Body) (cfg : Option FetchConfig) :
    Except Thrown (Result ρ FetchError) :=
  request oracle fcfg (some { cfg.getD {} with method := some "PUT", body := body })

/-- Models Fetcher.patch. -/
def patch {ρ : Type} (oracle : Nat → Except Thrown ρ)
    (fcfg : FetchConfig) (body : Option Body) (cfg : Option FetchConfig) :
    Except Thrown (Result ρ FetchError) :=
  request oracle fcfg (some { cfg.getD {} with method := some "PATCH", body := body })

/-- Models Fetcher.delete. -/
def deleteReq {ρ : Type} (oracle : Nat → Except Thrown ρ)
    (fcfg : FetchConfig) (cfg : Option FetchConfig) :
    Except Thrown (Result ρ FetchError) :=
  request oracle fcfg (some { cfg.getD {} with method := some "DELETE" })

/-- The well-formedness the Result invariant claims: success with data and
    no error, or failure with an error and no data. -/
def resultWF {T E : Type} (r : Result T E) : Prop :=
  (r.success = true ∧ r.data.isSome ∧ r.error = none) ∨
  (r.success = false ∧ r.data = none ∧ r.error.isSome)

/-- The invariant lifted over the possible escape of the error interceptor:
    whenever the call settles into a Result, that Result is well-formed. -/
def settledWF {T E : Type} : Except Thrown (Result T E) → Prop
  | .ok r => resultWF r
  | .error _ => True

/-! ### The polyfill module state machine (polyfill.ts) -/

/-- A value the global fetch binding can hold: the platform original or a
    wrapper installed by polyfillFetch. -/
inductive FetchBinding where
  | original
  | wrapper
deriving Repr, DecidableEq

/-- The process-scoped state the polyfill module manipulates: the global
    fetch binding (none when the property is absent) and the module-level
    originalFetch store. -/
structure PolyState where
  globalFetch : Option FetchBinding
  originalFetch : Option FetchBinding
deriving Repr, DecidableEq

/-- Models polyfillFetch: capture the current global fetch if none is stored
    yet and one exists (hasFetch), install the wrapper, return true. -/
def polyfillFetch (s : PolyState) : PolyState × Bool :=
  let captured :=
    if s.originalFetch.isNone && s.globalFetch.isSome then s.globalFetch
    else s.originalFetch
  (⟨some .wrapper, captured⟩, true)

/-- Models restoreFetch: with nothing captured, delete the global binding
    and report false; otherwise put the captured original back, clear the
    store and report true. -/
def restoreFetch (s : PolyState) : PolyState × Bool :=
  match s.originalFetch with
  | none => (⟨none, none⟩, false)
  | some f => (⟨some f, none⟩, true)

/-- Models isPolyfilled: the originalFetch store is occupied. -/
def isPolyfilled (s : PolyState) : Bool :=
  s.originalFetch.isSome

/-! ## Helper lemmas -/

/-- Every settled outcome of request is a well-formed Result: the two return
    sites of the catch-wrapped body build exactly the two legal shapes. -/
theorem request_wf {ρ : Type} (oracle : Nat → Except Thrown ρ)
    (fcfg : FetchConfig) (cfg : Option FetchConfig) :
    settledWF (request oracle fcfg cfg) := by
  unfold request
  cases h : (executeRequest oracle fcfg cfg).result with
  | ok resp => exact Or.inl ⟨rfl, rfl, rfl⟩
  | error t =>
    cases ho : fcfg.onError with
    | none => exact Or.inr ⟨rfl, rfl, rfl⟩
    | some handler =>
      cases hh : handler (toFetchError t) with
      | ok u => simp only [hh]; exact Or.inr ⟨rfl, rfl, rfl⟩
      | error t2 => simp only [hh]; trivial

/-- How headerGet reads a Headers object after one set: the set name answers
    with the new value, every other name is untouched. -/
theorem headerGet_headersSet (hs : HeaderList) (k v k2 : String) :
    headerGet (headersSet hs k v) k2 =
      if lowerString k2 = lowerString k then some v else headerGet hs k2 := by
  induction hs with
  | nil =>
    by_cases h : lowerString k2 = lowerString k
    · simp [headersSet, headerGet, h]
    · have h2 : ¬ lowerString k = lowerString k2 := fun hh => h hh.symm
      simp [headersSet, headerGet, h, h2]
  | cons p rest ih =>
    by_cases hpk : p.1 = lowerString k
    · have h1 : headersSet (p :: rest) k v = headersSet rest k v := by
        simp [headersSet, List.filter_cons, hpk]
      rw [h1, ih]
      by_cases h : lowerString k2 = lowerString k
      · simp [h]
      · have hp2 : ¬ p.1 = lowerString k2 := by
          rw [hpk]; exact fun hh => h hh.symm
        simp [h, headerGet, hp2]
    · have h1 : headersSet (p :: rest) k v = p :: headersSet rest k v := by
        simp [headersSet, List.filter_cons, hpk]
      rw [h1]
      by_cases h : lowerString k2 = lowerString k
      · have hp2 : ¬ p.1 = lowerString k2 := by
          rw [h]; exact hpk
        simp [headerGet, hp2, hpk, ih, h]
      · by_cases hp2 : p.1 = lowerString k2 <;> simp [headerGet, hp2, ih, h]

/-- How headerGet reads the Headers produced by folding a HeadersInit over
    an accumulator: the last binding of the init wins, otherwise the
    accumulator answers. -/
theorem headerGet_setAll (init : HeaderList) (acc : HeaderList) (k : String) :
    headerGet (setAll acc init) k = (lastGet init k).or (headerGet acc k) := by
  induction init generalizing acc with
  | nil => simp [setAll, lastGet]
  | cons p rest ih =>
    have h1 : setAll acc (p :: rest) = setAll (headersSet acc p.1 p.2) rest := rfl
    have h2 : lastGet (p :: rest) k =
        (lastGet rest k).or (if lowerString p.1 = lowerString k then some p.2 else none) := rfl
    rw [h1, ih, headerGet_headersSet, h2]
    cases hl : lastGet rest k with
    | some w => rfl
    | none =>
      by_cases h : lowerString k = lowerString p.1
      · rw [if_pos h, if_pos h.symm]
        rfl
      · have h3 : ¬ lowerString p.1 = lowerString k := fun hh => h hh.symm
        rw [if_neg h, if_neg h3]
        rfl

/-- mergeHeaders over a base and an override HeadersInit answers with the
    last override binding for a name, else the last base binding. -/
theorem mergeHeaders_pair (hb ho : Option HeaderList) (k : String) :
    headerGet (mergeHeaders [hb, ho]) k =
      (lastGet (ho.getD []) k).or (lastGet (hb.getD []) k) := by
  have he : mergeHeaders [hb, ho] = setAll (setAll [] (hb.getD [])) (ho.getD []) := by
    cases hb <;> cases ho <;> rfl
  rw [he, headerGet_setAll, headerGet_setAll]
  simp [headerGet]

/-- Lookup in the key-wise spread of two records: the override answers
    first, then the base. -/
theorem lookup_cons_self {α : Type} (k : String) (v : α) (l : List (String × α)) :
    List.lookup k ((k, v) :: l) = some v := by
  simp [List.lookup]

/-- Lookup walks past a head entry with a different key. -/
theorem lookup_cons_ne {α : Type} (k k1 : String) (v : α) (l : List (String × α))
    (h : ¬ k = k1) :
    List.lookup k ((k1, v) :: l) = List.lookup k l := by
  have hbeq : (k == k1) = false := beq_eq_false_iff_ne.mpr h
  simp [List.lookup, hbeq]

/-- Lookup in the key-wise spread of two records: the override answers
    first, then the base. -/
theorem lookup_spreadObj {α : Type} (a b : List (String × α)) (k : String) :
    (spreadObj a b).lookup k = (b.lookup k).or (a.lookup k) := by
  induction a with
  | nil =>
    have h : ∀ o : Option α, o = o.or none := by
      intro o; cases o <;> rfl
    exact h (List.lookup k b)
  | cons p rest ih =>
    obtain ⟨k1, v1⟩ := p
    cases hb : List.lookup k1 b with
    | some w =>
      have h1 : spreadObj ((k1, v1) :: rest) b = spreadObj rest b := by
        simp [spreadObj, List.filter_cons, hb]
      by_cases hk : k = k1
      · subst hk
        rw [h1, ih, hb]
        rfl
      · have e2 : List.lookup k ((k1, v1) :: rest) = List.lookup k rest :=
          lookup_cons_ne k k1 v1 rest hk
        rw [h1, ih, e2]
    | none =>
      have h1 : spreadObj ((k1, v1) :: rest) b = (k1, v1) :: spreadObj rest b := by
        simp [spreadObj, List.filter_cons, hb]
      by_cases hk : k = k1
      · subst hk
        rw [h1, hb, lookup_cons_self, lookup_cons_self]
        rfl
      · have e1 : List.lookup k ((k1, v1) :: spreadObj rest b) =
            List.lookup k (spreadObj rest b) :=
          lookup_cons_ne k k1 v1 (spreadObj rest b) hk
        have e2 : List.lookup k ((k1, v1) :: rest) = List.lookup k rest :=
          lookup_cons_ne k k1 v1 rest hk
        rw [h1, e1, e2, ih]

/-- Null and undefined parameter values contribute nothing to the
    URLSearchParams accumulation. -/
theorem paramPairs_filter (ps : ParamMap) :
    paramPairs (ps.filter fun p => p.2.isSome) = paramPairs ps := by
  induction ps with
  | nil => rfl
  | cons p rest ih =>
    cases h : p.2 with
    | none => simpa [paramPairs, List.filter_cons, List.filterMap_cons, h] using ih
    | some v => simpa [paramPairs, List.filter_cons, List.filterMap_cons, h] using ih

/-- A succeeding attempt returns at once. -/
theorem execLoop_ok {ρ : Type} (oracle : Nat → Except Thrown ρ) (d b : Nat)
    (ro : Option (List Nat)) (attempt togo : Nat) (r : ρ)
    (h : oracle attempt = Except.ok r) :
    execLoop oracle d b ro attempt togo = ⟨1, [], Except.ok r⟩ := by
  rw [execLoop]
  simp [h]

/-- A failing last attempt rethrows the failure. -/
theorem execLoop_fail_last {ρ : Type} (oracle : Nat → Except Thrown ρ) (d b : Nat)
    (ro : Option (List Nat)) (attempt : Nat) (e : Thrown)
    (h : oracle attempt = Except.error e) :
    execLoop oracle d b ro attempt 0 = ⟨1, [], Except.error e⟩ := by
  rw [execLoop]
  simp [h]

/-- A failing non-final attempt whose error is not fail-fast waits the
    backoff delay and recurses. -/
theorem execLoop_fail_retry {ρ : Type} (oracle : Nat → Except Thrown ρ) (d b : Nat)
    (ro : Option (List Nat)) (attempt togo : Nat) (e : Thrown)
    (h : oracle attempt = Except.error e) (hff : failsFast e ro = false) :
    execLoop oracle d b ro attempt (togo + 1) =
      ⟨(execLoop oracle d b ro (attempt + 1) togo).attempts + 1,
       d * b ^ attempt :: (execLoop oracle d b ro (attempt + 1) togo).delays,
       (execLoop oracle d b ro (attempt + 1) togo).result⟩ := by
  rw [execLoop]
  simp [h, hff]

/-- A failing non-final attempt whose error is fail-fast rethrows at once. -/
theorem execLoop_fail_fast {ρ : Type} (oracle : Nat → Except Thrown ρ) (d b : Nat)
    (ro : Option (List Nat)) (attempt togo : Nat) (e : Thrown)
    (h : oracle attempt = Except.error e) (hff : failsFast e ro = true) :
    execLoop oracle d b ro attempt (togo + 1) = ⟨1, [], Except.error e⟩ := by
  rw [execLoop]
  simp [h, hff]

/-! ## Claims -/

/-- C1: for every attempt oracle and config, if the configured error
    interceptor is absent or never itself throws, the public request
    operation never throws: it settles into a Result, and on every failure
    path that Result has success false and a FetchError in its error
    slot. -/
theorem request_never_throws (ρ : Type) (oracle : Nat → Except Thrown ρ)
    (fcfg : FetchConfig) (cfg : Option FetchConfig)
    (hOnError : ∀ g, fcfg.onError = some g → ∀ e, ∃ u, g e = Except.ok u) :
    ∃ r : Result ρ FetchError, request oracle fcfg cfg = Except.ok r ∧
      ∀ t, (executeRequest oracle fcfg cfg).result = Except.error t →
        r.success = false ∧ ∃ fe : FetchError, r.error = some fe := by
  unfold request
  cases h : (executeRequest oracle fcfg cfg).result with
  | ok resp =>
    exact ⟨⟨true, some resp, none⟩, rfl, fun t ht => by cases ht⟩
  | error t =>
    cases ho : fcfg.onError with
    | none => exact ⟨_, rfl, fun t2 _ => ⟨rfl, toFetchError t, rfl⟩⟩
    | some handler =>
      obtain ⟨u, hu⟩ := hOnError handler ho (toFetchError t)
      simp only [hu]
      exact ⟨_, rfl, fun t2 _ => ⟨rfl, toFetchError t, rfl⟩⟩

/-- C1 witness: with a network-failing oracle and no error interceptor, the
    hypothesis holds and request settles into a failure Result. -/
theorem request_never_throws_witness :
    ∃ r : Result Nat FetchError,
      request (fun _ => Except.error (Thrown.jsError "network failure")) {} none =
        Except.ok r ∧
      ∀ t, (executeRequest
              ((fun _ => Except.error (Thrown.jsError "network failure")) :
                Nat → Except Thrown Nat)
              ({} : FetchConfig) none).result = Except.error t →
        r.success = false ∧ ∃ fe : FetchError, r.error = some fe :=
  request_never_throws Nat (fun _ => Except.error (Thrown.jsError "network failure"))
    {} none (fun _ hg => nomatch hg)

/-- C2: every Result produced by request and by the get, post, put, patch
    and delete wrappers has exactly one of data and error populated: success
    true with data and no error, or success false with an error and no
    data. -/
theorem request_result_exactly_one (ρ : Type) (oracle : Nat → Except Thrown ρ)
    (fcfg : FetchConfig) (cfg : Option FetchConfig) (body : Option Body) :
    settledWF (request oracle fcfg cfg) ∧
    settledWF (get oracle fcfg cfg) ∧
    settledWF (post oracle fcfg body cfg) ∧
    settledWF (put oracle fcfg body cfg) ∧
    settledWF (patch oracle fcfg body cfg) ∧
    settledWF (deleteReq oracle fcfg cfg) :=
  ⟨request_wf oracle fcfg cfg,
   request_wf oracle fcfg (some { cfg.getD {} with method := some "GET" }),
   request_wf oracle fcfg (some { cfg.getD {} with method := some "POST", body := body }),
   request_wf oracle fcfg (some { cfg.getD {} with method := some "PUT", body := body }),
   request_wf oracle fcfg (some { cfg.getD {} with method := some "PATCH", body := body }),
   request_wf oracle fcfg (some { cfg.getD {} with method := some "DELETE" })⟩

/-- C3: when every attempt throws a timeout (a FetchError with no status)
    and the merged retry policy has count 2, delay d and backoff b, the
    executor performs exactly 3 attempts, waits d * b ^ 0 and then d * b ^ 1
    milliseconds after the two failed non-final attempts, and surfaces the
    timeout of the last attempt: timeouts are retried until the attempt
    budget is exhausted. -/
theorem timeout_attempts_exhaust_budget (ρ : Type) (oracle : Nat → Except Thrown ρ)
    (fcfg : FetchConfig) (cfg : Option FetchConfig) (te : Nat → FetchError)
    (d b : Nat) (ro : Option (List Nat))
    (hcount : ((mergeConfig (some fcfg) cfg).retry.bind fun rp => rp.count) = some 2)
    (hdelay : ((mergeConfig (some fcfg) cfg).retry.bind fun rp => rp.delay) = some d)
    (hbackoff : ((mergeConfig (some fcfg) cfg).retry.bind fun rp => rp.backoff) = some b)
    (hro : ((mergeConfig (some fcfg) cfg).retry.bind fun rp => rp.retryOn) = ro)
    (horacle : ∀ n, oracle n = Except.error (.fetchError (te n)))
    (hstatus : ∀ n, (te n).status = none)
    (_hname : ∀ n, (te n).name = "TimeoutError") :
    executeRequest oracle fcfg cfg =
      ⟨3, [d * b ^ 0, d * b ^ 1], Except.error (.fetchError (te 2))⟩ := by
  have hff : ∀ n, failsFast (.fetchError (te n)) ro = false := by
    intro n
    simp [failsFast, hstatus n]
  simp only [executeRequest, hcount, hdelay, hbackoff, hro, Option.getD_some]
  rw [if_neg (by norm_num)]
  rw [show ((2 : Int).toNat) = 2 from rfl]
  rw [execLoop_fail_retry oracle d b ro 0 1 _ (horacle 0) (hff 0),
      execLoop_fail_retry oracle d b ro 1 0 _ (horacle 1) (hff 1),
      execLoop_fail_last oracle d b ro 2 _ (horacle 2)]

/-- C3 witness: a concrete all-timeout oracle, retry count 2, base delay 50
    and backoff 2 produce 3 attempts, the delays 50 and 100, and the final
    timeout. -/
theorem timeout_attempts_exhaust_budget_witness :
    ((mergeConfig (some ({} : FetchConfig))
        (some { retry := some ⟨some 2, some 50, some 2, none⟩ })).retry.bind
      fun rp => rp.count) = some 2 ∧
    executeRequest
      ((fun _ => Except.error
          (.fetchError (FetchError.timeout "Request timeout after 100ms" 100))) :
        Nat → Except Thrown Nat)
      {} (some { retry := some ⟨some 2, some 50, some 2, none⟩ }) =
      ⟨3, [50 * 2 ^ 0, 50 * 2 ^ 1],
       Except.error (.fetchError (FetchError.timeout "Request timeout after 100ms" 100))⟩ :=
  ⟨rfl,
   timeout_attempts_exhaust_budget Nat _ {}
     (some { retry := some ⟨some 2, some 50, some 2, none⟩ })
     (fun _ => FetchError.timeout "Request timeout after 100ms" 100) 50 2 none
     rfl rfl rfl rfl (fun _ => rfl) (fun _ => rfl) (fun _ => rfl)⟩

/-- C4: when the first attempt throws a FetchError carrying an HTTP status
    (a code of at least 100) that the policy does not retry, the executor
    propagates it after exactly one attempt with no delay, even with retry
    count 3. -/
theorem nonretryable_status_fails_fast (ρ : Type) (oracle : Nat → Except Thrown ρ)
    (fcfg : FetchConfig) (cfg : Option FetchConfig) (fe : FetchError) (s : Nat)
    (ro : Option (List Nat))
    (hcount : ((mergeConfig (some fcfg) cfg).retry.bind fun rp => rp.count) = some 3)
    (hro : ((mergeConfig (some fcfg) cfg).retry.bind fun rp => rp.retryOn) = ro)
    (h0 : oracle 0 = Except.error (.fetchError fe))
    (hs : fe.status = some s)
    (hhttp : 100 ≤ s)
    (hnr : shouldRetry s ro = false) :
    executeRequest oracle fcfg cfg = ⟨1, [], Except.error (.fetchError fe)⟩ := by
  have hff : failsFast (.fetchError fe) ro = true := by
    simp [failsFast, hs, hnr]
    omega
  simp only [executeRequest, hcount, hro, Option.getD_some]
  rw [if_neg (by norm_num)]
  rw [show ((3 : Int).toNat) = 3 from rfl]
  rw [execLoop_fail_fast _ _ _ ro 0 2 _ h0 hff]

/-- C4 witness: a 404 failure under the default retryable set and retry
    count 3 makes exactly one attempt and no delay. -/
theorem nonretryable_status_fails_fast_witness :
    shouldRetry 404 none = false ∧
    executeRequest
      ((fun _ => Except.error
          (.fetchError ⟨"FetchError", "Request failed with status 404",
            some 404, some "Not Found", none, none⟩)) :
        Nat → Except Thrown Nat)
      {} (some { retry := some ⟨some 3, none, none, none⟩ }) =
      ⟨1, [], Except.error
        (.fetchError ⟨"FetchError", "Request failed with status 404",
          some 404, some "Not Found", none, none⟩)⟩ :=
  ⟨by decide,
   nonretryable_status_fails_fast Nat _ {}
     (some { retry := some ⟨some 3, none, none, none⟩ })
     ⟨"FetchError", "Request failed with status 404", some 404, some "Not Found",
      none, none⟩ 404 none rfl rfl rfl rfl (by decide) (by decide)⟩

/-- C10: with a negative merged retry count the attempt loop body never
    runs: zero attempts are performed, the undefined last-error accumulator
    is thrown, and (with no error interceptor) request resolves to a failure
    Result whose error is a FetchError with the message undefined. -/
theorem negative_retry_count_no_attempts (ρ : Type) (oracle : Nat → Except Thrown ρ)
    (fcfg : FetchConfig) (cfg : Option FetchConfig) (c : Int)
    (hcount : ((mergeConfig (some fcfg) cfg).retry.bind fun rp => rp.count) = some c)
    (hneg : c < 0)
    (honerr : fcfg.onError = none) :
    executeRequest oracle fcfg cfg = ⟨0, [], Except.error Thrown.undef⟩ ∧
    request oracle fcfg cfg =
      Except.ok ⟨false, none, some ⟨"FetchError", "undefined", none, none, none, none⟩⟩ := by
  have h1 : executeRequest oracle fcfg cfg = ⟨0, [], Except.error Thrown.undef⟩ := by
    simp only [executeRequest, hcount, Option.getD_some]
    rw [if_pos hneg]
  refine ⟨h1, ?_⟩
  unfold request
  rw [h1]
  simp [honerr, toFetchError, createError]

/-- C10 witness: retry count -1 gives zero attempts and the undefined-based
    FetchError, even though the oracle would have succeeded. -/
theorem negative_retry_count_no_attempts_witness :
    ((mergeConfig (some ({} : FetchConfig))
        (some { retry := some ⟨some (-1), none, none, none⟩ })).retry.bind
      fun rp => rp.count) = some (-1) ∧
    executeRequest ((fun _ => Except.ok 0) : Nat → Except Thrown Nat)
      {} (some { retry := some ⟨some (-1), none, none, none⟩ }) =
      ⟨0, [], Except.error Thrown.undef⟩ ∧
    request ((fun _ => Except.ok 0) : Nat → Except Thrown Nat)
      {} (some { retry := some ⟨some (-1), none, none, none⟩ }) =
      Except.ok ⟨false, none, some ⟨"FetchError", "undefined", none, none, none, none⟩⟩ :=
  ⟨rfl,
   (negative_retry_count_no_attempts Nat _ {}
     (some { retry := some ⟨some (-1), none, none, none⟩ }) (-1)
     rfl (by decide) rfl).1,
   (negative_retry_count_no_attempts Nat _ {}
     (some { retry := some ⟨some (-1), none, none, none⟩ }) (-1)
     rfl (by decide) rfl).2⟩

/-- C5 counterexample: with validateStatus set to the boolean false, a 404
    response with a false ok flag is judged VALID by the code, while the
    claim (boolean used directly as the validity verdict) predicts
    invalid. -/
theorem validateStatus_bool_cex :
    isValid (some (.bool false)) 404 false = true ∧
    isValidSpecClaim (some (.bool false)) 404 false = false :=
  ⟨rfl, rfl⟩

/-- C5 amended: a validateStatus function is applied to the numeric status;
    the boolean true makes validity the transport ok flag; the boolean false
    makes every response valid; unset behaves like true, so validity is the
    ok flag. -/
theorem validateStatus_semantics (f : Nat → Bool) (status : Nat) (ok : Bool) :
    isValid (some (.pred f)) status ok = f status ∧
    isValid (some (.bool true)) status ok = ok ∧
    isValid (some (.bool false)) status ok = true ∧
    isValid none status ok = ok :=
  ⟨rfl, rfl, rfl, rfl⟩

/-- C7: serializing the object with field name John yields exactly the JSON
    text with derived Content-Type application/json; a string body passes
    through with text/plain; a FormData body passes through with no derived
    Content-Type; an undefined or null body gives no body and no
    Content-Type. -/
theorem body_serialization_content_type (s : String) :
    serializeBody (some (.obj [("name", .str "John")])) =
      some (.str "\x7b\"name\":\"John\"\x7d") ∧
    getContentType (some (.obj [("name", .str "John")])) = some "application/json" ∧
    serializeBody (some (.str s)) = some (.str s) ∧
    getContentType (some (.str s)) = some "text/plain" ∧
    serializeBody (some .formData) = some .formData ∧
    getContentType (some .formData) = none ∧
    serializeBody none = none ∧
    serializeBody (some .null) = none ∧
    getContentType none = none ∧
    getContentType (some .null) = none :=
  ⟨rfl, rfl, rfl, rfl, rfl, rfl, rfl, rfl, rfl, rfl⟩

/-- C6: merging a base with an override config answers header lookups with
    the override value when it has one (key-wise, case-insensitively) and
    the base value otherwise, merges params key-wise the same way, merges
    the retry policy field-wise, and for every other field takes the
    override value when present and otherwise preserves the base value
    unchanged. -/
theorem extend_mergeConfig_fields (bcfg ocfg : FetchConfig) :
    (∀ k, headerGet ((mergeConfig (some bcfg) (some ocfg)).headers.getD []) k =
        (lastGet (ocfg.headers.getD []) k).or (lastGet (bcfg.headers.getD []) k)) ∧
    (∀ k, ((mergeConfig (some bcfg) (some ocfg)).params.getD []).lookup k =
        ((ocfg.params.getD []).lookup k).or ((bcfg.params.getD []).lookup k)) ∧
    (mergeConfig (some bcfg) (some ocfg)).retry =
      some ⟨((ocfg.retry.getD {}).count).or ((bcfg.retry.getD {}).count),
            ((ocfg.retry.getD {}).delay).or ((bcfg.retry.getD {}).delay),
            ((ocfg.retry.getD {}).backoff).or ((bcfg.retry.getD {}).backoff),
            ((ocfg.retry.getD {}).retryOn).or ((bcfg.retry.getD {}).retryOn)⟩ ∧
    (mergeConfig (some bcfg) (some ocfg)).method = ocfg.method.or bcfg.method ∧
    (mergeConfig (some bcfg) (some ocfg)).body = ocfg.body.or bcfg.body ∧
    (mergeConfig (some bcfg) (some ocfg)).timeout = ocfg.timeout.or bcfg.timeout ∧
    (mergeConfig (some bcfg) (some ocfg)).baseURL = ocfg.baseURL.or bcfg.baseURL ∧
    (mergeConfig (some bcfg) (some ocfg)).responseType =
      ocfg.responseType.or bcfg.responseType ∧
    (mergeConfig (some bcfg) (some ocfg)).parseJson = ocfg.parseJson.or bcfg.parseJson ∧
    (mergeConfig (some bcfg) (some ocfg)).validateStatus =
      ocfg.validateStatus.or bcfg.validateStatus ∧
    (mergeConfig (some bcfg) (some ocfg)).onRequest = ocfg.onRequest.or bcfg.onRequest ∧
    (mergeConfig (some bcfg) (some ocfg)).onResponse =
      ocfg.onResponse.or bcfg.onResponse ∧
    (mergeConfig (some bcfg) (some ocfg)).transformRequest =
      ocfg.transformRequest.or bcfg.transformRequest ∧
    (mergeConfig (some bcfg) (some ocfg)).transformResponse =
      ocfg.transformResponse.or bcfg.transformResponse ∧
    (mergeConfig (some bcfg) (some ocfg)).onError = ocfg.onError.or bcfg.onError :=
  ⟨fun k => mergeHeaders_pair bcfg.headers ocfg.headers k,
   fun k => lookup_spreadObj (bcfg.params.getD []) (ocfg.params.getD []) k,
   rfl, rfl, rfl, rfl, rfl, rfl, rfl, rfl, rfl, rfl, rfl, rfl, rfl⟩

/-- C8: buildURL ignores parameters whose value is null or undefined (the
    result is the same as with those entries dropped); appending the single
    surviving parameter of a 1, b null, c undefined appends only a=1, with
    the ampersand separator exactly when the URL already holds a question
    mark; and a URL with an existing query keeps it and extends it with an
    ampersand. -/
theorem buildURL_spec (url : String) (ps : ParamMap) :
    buildURL url (some ps) = buildURL url (some (ps.filter fun p => p.2.isSome)) ∧
    buildURL url (some [("a", some (.num 1)), ("b", none), ("c", none)]) =
      url ++ (if hasQuestionMark url then "&" else "?") ++ "a=1" ∧
    buildURL "u?x=1" (some [("a", some (.num 1))]) = "u?x=1&a=1" := by
  refine ⟨?_, ?_, by decide⟩
  · simp [buildURL, paramPairs_filter]
  · have hq : searchParamsToString
        (paramPairs [("a", some (Prim.num 1)), ("b", none), ("c", none)]) = "a=1" := by
      decide
    simp only [buildURL, hq]
    rw [if_neg (by decide)]

/-- C9 counterexample: installing from a state with no global fetch and
    nothing captured does install the wrapper, yet isPolyfilled still
    reports not installed afterwards, against the claim that after an
    install the query reports installed. -/
theorem polyfill_install_unreported_cex :
    (polyfillFetch ⟨none, none⟩).1.globalFetch = some .wrapper ∧
    isPolyfilled (polyfillFetch ⟨none, none⟩).1 = false :=
  ⟨rfl, rfl⟩

/-- C9 amended: polyfillFetch installs the wrapper, captures the current
    global fetch only when none is captured yet and one exists, and leaves
    an existing capture alone; after an install from a state where a global
    fetch was present or an original was already captured, isPolyfilled
    reports installed; restoreFetch puts the captured original back, clears
    the capture (so isPolyfilled reports not installed), and returns true
    exactly when an original had been captured. -/
theorem polyfill_lifecycle (s : PolyState) :
    (polyfillFetch s).1.globalFetch = some .wrapper ∧
    (s.originalFetch = none → s.globalFetch.isSome →
      (polyfillFetch s).1.originalFetch = s.globalFetch) ∧
    (∀ f, s.originalFetch = some f → (polyfillFetch s).1.originalFetch = some f) ∧
    ((s.globalFetch.isSome ∨ s.originalFetch.isSome) →
      isPolyfilled (polyfillFetch s).1 = true) ∧
    (∀ f, s.originalFetch = some f →
      (restoreFetch s).1.globalFetch = some f ∧
      (restoreFetch s).1.originalFetch = none ∧
      (restoreFetch s).2 = true) ∧
    (s.originalFetch = none →
      (restoreFetch s).2 = false ∧ (restoreFetch s).1.globalFetch = none) ∧
    isPolyfilled (restoreFetch s).1 = false := by
  obtain ⟨g, o⟩ := s
  cases g <;> cases o <;>
    simp [polyfillFetch, restoreFetch, isPolyfilled]

/-- C9 witness: the amended lifecycle at concrete states: an install over a
    present platform fetch makes isPolyfilled report installed, and a
    restore from the installed state puts the original back and returns
    true. -/
theorem polyfill_lifecycle_witness :
    isPolyfilled (polyfillFetch ⟨some .original, none⟩).1 = true ∧
    (restoreFetch ⟨some .wrapper, some .original⟩).1.globalFetch = some .original ∧
    (restoreFetch ⟨some .wrapper, some .original⟩).2 = true :=
  ⟨(polyfill_lifecycle ⟨some .original, none⟩).2.2.2.1 (Or.inl rfl),
   ((polyfill_lifecycle ⟨some .wrapper, some .original⟩).2.2.2.2.1 .original rfl).1,
   ((polyfill_lifecycle ⟨some .wrapper, some .original⟩).2.2.2.2.1 .original rfl).2.2⟩

end RizzleFetch
